import Mathlib

/-!
Verification development for the kaldi core in `src/`:
`src/nnet3/nnet-component-itf.h` (Component / UpdatableComponent /
NonlinearComponent interfaces) and `src/cudamatrix/cu-sparse-matrix.h`
(CuSparseMatrix).  Machine floats (BaseFloat, double) are embedded as
exact rationals; device vectors and matrices as lists.
-/

namespace Kaldi

/-- BaseFloat of the source, embedded as an exact rational. -/
abbrev BaseFloat := ℚ

/-! ## ComponentProperties bitmask (nnet-component-itf.h, enum ComponentProperties) -/

def kSimpleComponent : Nat := 0x001

def kUpdatableComponent : Nat := 0x002

def kLinearInInput : Nat := 0x004

def kLinearInParameters : Nat := 0x008

def kBackpropNeedsInput : Nat := 0x010

def kBackpropNeedsOutput : Nat := 0x020

def kPropagateInPlace : Nat := 0x040

def kBackpropInPlace : Nat := 0x080

def kPropagateAdds : Nat := 0x100

def kBackpropAdds : Nat := 0x200

/-! ## NonlinearComponent state (nnet-component-itf.h, lines 305-360) -/

/-- State of a NonlinearComponent: `dim_`, the device-resident accumulators
`value_sum_` and `deriv_sum_` (one double per dimension, embedded as a list
of rationals), and the scalar `count_`. -/
structure NonlinearComponent where
  dim : Int
  value_sum : List ℚ
  deriv_sum : List ℚ
  count : ℚ
  deriving DecidableEq

/-- NonlinearComponent::Init, inline in nnet-component-itf.h line 307:
`dim_ = dim; count_ = 0.0;`.  It assigns the dimension and zeroes the count;
`value_sum_` and `deriv_sum_` are not touched by this function. -/
def NonlinearComponent.Init (c : NonlinearComponent) (dim : Int) :
    NonlinearComponent :=
  { c with dim := dim, count := 0 }

/-! ## Matrices and the UpdateStats accumulation -/

/-- A device matrix: a list of rows (each a list of rationals) together with
its column count, mirroring CuMatrixBase which knows NumRows and NumCols. -/
structure CuMat where
  rows : List (List ℚ)
  ncols : Nat
  deriving DecidableEq

/-- Row-sum of column `j` of a matrix: the sum over all rows of the entry in
column `j` (missing entries read as 0). -/
def colSum (m : List (List ℚ)) (j : Nat) : ℚ :=
  (m.map (fun row => row.getD j 0)).sum

/-- The per-column row-sums of a matrix, as a vector of length `n`. -/
def colSums (m : List (List ℚ)) (n : Nat) : List ℚ :=
  (List.range n).map (colSum m)

/-- Element-wise sum of two vectors of equal length. -/
def vecAdd (a b : List ℚ) : List ℚ :=
  List.zipWith (fun x y => x + y) a b

/-- Lazy resize of an accumulator vector: grow to length `n` with zero
padding, keeping existing data; never shrink. -/
def resizeKeep (v : List ℚ) (n : Nat) : List ℚ :=
  if v.length < n then v ++ List.replicate (n - v.length) 0 else v

/-- Modelled from the spec: the body of NonlinearComponent::UpdateStats is in
nnet-component-itf.cc, which is not under src/; the header declares it at
lines 344-348.  Per the spec it lazily resizes the accumulators, adds the
per-output-column row-summed activation values into `value_sum`, adds the
row-summed derivative values into `deriv_sum` when a derivative matrix is
supplied (leaving `deriv_sum` unchanged otherwise), and increments `count`
by the number of rows processed. -/
def NonlinearComponent.UpdateStats (c : NonlinearComponent) (out_value : CuMat)
    (deriv : Option CuMat) : NonlinearComponent :=
  { c with
    value_sum := vecAdd (resizeKeep c.value_sum out_value.ncols)
      (colSums out_value.rows out_value.ncols),
    deriv_sum :=
      match deriv with
      | some d => vecAdd (resizeKeep c.deriv_sum out_value.ncols)
          (colSums d.rows out_value.ncols)
      | none => c.deriv_sum,
    count := c.count + out_value.rows.length }

/-! ## UpdatableComponent (nnet-component-itf.h, lines 236-299) -/

/-- State of an UpdatableComponent: the base-class members `learning_rate_`
and `is_gradient_`, together with the parameter storage owned by the
concrete subclass (embedded as one list of rationals).  `is_gradient` is an
`Option Bool`: `none` models the C++ field holding no assigned value. -/
structure UpdatableComponent where
  learning_rate : ℚ
  is_gradient : Option Bool
  params : List ℚ
  deriving DecidableEq

/-- The no-argument constructor, inline in nnet-component-itf.h line 250:
`UpdatableComponent(): learning_rate_(0.001) { }`.  Only `learning_rate_`
is initialized; `is_gradient_` is left without a value (`none`); the
parameter storage belongs to the concrete subclass and is taken as given. -/
def UpdatableComponent.mkDefault (params : List ℚ) : UpdatableComponent :=
  { learning_rate := 0.001, is_gradient := none, params := params }

/-- UpdatableComponent::LearningRate, inline in the header:
`return learning_rate_;`. -/
def UpdatableComponent.LearningRate (c : UpdatableComponent) : ℚ :=
  c.learning_rate

/-- UpdatableComponent::SetLearningRate, inline in the header:
`learning_rate_ = lrate;`. -/
def UpdatableComponent.SetLearningRate (c : UpdatableComponent) (lrate : ℚ) :
    UpdatableComponent :=
  { c with learning_rate := lrate }

/-- Modelled from the spec: SetZero is pure virtual in nnet-component-itf.h
(line 248); the concrete overrides are not under src/.  Per the header doc
and the spec it sets all parameters to zero, and when `treat_as_gradient`
holds it also sets `is_gradient_` to true and the learning rate to 1. -/
def UpdatableComponent.SetZero (c : UpdatableComponent)
    (treat_as_gradient : Bool) : UpdatableComponent :=
  if treat_as_gradient then
    { learning_rate := 1, is_gradient := some true,
      params := List.replicate c.params.length 0 }
  else
    { c with params := List.replicate c.params.length 0 }

/-- Errors raised by the embedded code; `assertFailure` models a failed
KALDI_ASSERT (a fatal abort). -/
inductive KaldiError where
  | assertFailure
  deriving DecidableEq

/-- Default UpdatableComponent::GetParameterDim, inline in the header
(line 280): `KALDI_ASSERT(0); return 0;` — it aborts before returning. -/
def UpdatableComponent.GetParameterDim (c : UpdatableComponent) :
    Except KaldiError Int :=
  Except.error KaldiError.assertFailure

/-- Default UpdatableComponent::Vectorize, inline in the header (line 285):
`KALDI_ASSERT(0);`. -/
def UpdatableComponent.Vectorize (c : UpdatableComponent) :
    Except KaldiError (List ℚ) :=
  Except.error KaldiError.assertFailure

/-- Default UpdatableComponent::UnVectorize, inline in the header
(lines 287-289): `KALDI_ASSERT(0);`. -/
def UpdatableComponent.UnVectorize (c : UpdatableComponent)
    (params : List ℚ) : Except KaldiError UpdatableComponent :=
  Except.error KaldiError.assertFailure

/-! ## Component (nnet-component-itf.h, lines 79-227) -/

/-- The index descriptor of a logical matrix row (struct Index of
nnet-common.h, referenced but not under src/): a row index plus auxiliary
context fields, modelled from the spec. -/
structure Index where
  n : Int
  t : Int
  x : Int
  deriving DecidableEq

/-- Computation-wide contextual descriptor (MiscComputationInfo of
nnet-common.h, referenced but not under src/), modelled from the spec as
carrying no data relevant to the embedded operations. -/
inductive MiscComputationInfo where
  | mk
  deriving DecidableEq

/-- Per-invocation precomputed index metadata (base class
ComponentPrecomputedIndexes, nnet-component-itf.h lines 79-82, which has no
data members). -/
inductive ComponentPrecomputedIndexes where
  | mk
  deriving DecidableEq

/-- One token of a serialized stream: a text marker token, an integer field,
a scalar field, or a vector field. -/
inductive Token where
  | tok (s : String)
  | int (n : Int)
  | num (q : ℚ)
  | vec (v : List ℚ)
  deriving DecidableEq

/-- Modelled from the spec: the concrete component types (sigmoid, tanh and
friends) live in nnet3 files that are not under src/; the spec requires at
least fixed-dimension element-wise nonlinearities extending
NonlinearComponent.  Two such concrete types are modelled. -/
inductive Component where
  | sigmoid (nc : NonlinearComponent)
  | tanh (nc : NonlinearComponent)
  deriving DecidableEq

/-- Component::Type(): the stable type-name string of each concrete type
(`Type` is a reserved word in Lean, hence the name `componentType`). -/
def Component.componentType : Component → String
  | Component.sigmoid _ => "SigmoidComponent"
  | Component.tanh _ => "TanhComponent"

/-- Modelled from the spec: Properties() of the concrete types (their
definitions are not under src/).  Both modelled types are fixed-dimension
element-wise nonlinearities: simple, in-place capable, needing the
forward-pass output for backprop.  The bitmask depends only on the
constructor, never on the instance state. -/
def Component.Properties : Component → Nat
  | Component.sigmoid _ => kSimpleComponent ||| kPropagateInPlace ||| kBackpropNeedsOutput
  | Component.tanh _ => kSimpleComponent ||| kPropagateInPlace ||| kBackpropNeedsOutput

/-- Component::InputDim() — for a NonlinearComponent this is `dim_`
(nnet-component-itf.h line 312). -/
def Component.InputDim : Component → Int
  | Component.sigmoid nc => nc.dim
  | Component.tanh nc => nc.dim

/-- Component::OutputDim() — for a NonlinearComponent this is `dim_`
(nnet-component-itf.h line 313). -/
def Component.OutputDim : Component → Int
  | Component.sigmoid nc => nc.dim
  | Component.tanh nc => nc.dim

/-- Modelled from the spec: the default Component::GetInputIndexes body is
in nnet-component-itf.cc, not under src/.  Per the header doc (lines
142-144) and the spec, it copies the output index to a single identical
input index; both modelled concrete types are simple and inherit it. -/
def Component.GetInputIndexes (c : Component) (misc_info : MiscComputationInfo)
    (output_index : Index) : List Index :=
  match c with
  | Component.sigmoid _ => [output_index]
  | Component.tanh _ => [output_index]

/-- The default Component::PrecomputeIndexes, inline in nnet-component-itf.h
lines 168-172: `{ return NULL; }`.  Neither modelled concrete type
overrides it. -/
def Component.PrecomputeIndexes (c : Component)
    (misc_info : MiscComputationInfo) (input_indexes : List Index)
    (output_indexes : List Index) (need_backprop : Bool) :
    Option ComponentPrecomputedIndexes :=
  none

/-- Modelled from the spec: NonlinearComponent::Write is declared at
nnet-component-itf.h line 322 with its body in nnet-component-itf.cc, not
under src/.  The self-describing format: marker tokens followed by the
fields `dim_`, `value_sum_`, `deriv_sum_`, `count_`. -/
def NonlinearComponent.writeBody (c : NonlinearComponent) : List Token :=
  [Token.tok "<Dim>", Token.int c.dim,
   Token.tok "<ValueSum>", Token.vec c.value_sum,
   Token.tok "<DerivSum>", Token.vec c.deriv_sum,
   Token.tok "<Count>", Token.num c.count]

/-- Modelled from the spec: the reading counterpart of
`NonlinearComponent.writeBody`, returning the parsed state and the unread
remainder of the stream, or `none` on a format error. -/
def NonlinearComponent.readBody :
    List Token → Option (NonlinearComponent × List Token)
  | Token.tok "<Dim>" :: Token.int d :: Token.tok "<ValueSum>" :: Token.vec vs ::
      Token.tok "<DerivSum>" :: Token.vec ds :: Token.tok "<Count>" :: Token.num ct ::
      rest => some (⟨d, vs, ds, ct⟩, rest)
  | _ => none

/-- Component::Write (pure virtual at nnet-component-itf.h line 216;
concrete bodies not under src/), modelled from the spec: the type token
precedes the body, and a matching end token closes it. -/
def Component.Write (c : Component) : List Token :=
  match c with
  | Component.sigmoid nc =>
      Token.tok "<SigmoidComponent>" ::
        nc.writeBody ++ [Token.tok "</SigmoidComponent>"]
  | Component.tanh nc =>
      Token.tok "<TanhComponent>" ::
        nc.writeBody ++ [Token.tok "</TanhComponent>"]

/-- Component::Read (pure virtual at nnet-component-itf.h line 213; bodies
not under src/), modelled from the spec: reads the body of a component whose
type is already known (the type token has been consumed), expecting the
matching end token. -/
def Component.Read (c : Component) (ts : List Token) :
    Except String Component :=
  match c with
  | Component.sigmoid _ =>
      match NonlinearComponent.readBody ts with
      | some (nc, [Token.tok "</SigmoidComponent>"]) =>
          Except.ok (Component.sigmoid nc)
      | _ => Except.error "format error"
  | Component.tanh _ =>
      match NonlinearComponent.readBody ts with
      | some (nc, [Token.tok "</TanhComponent>"]) =>
          Except.ok (Component.tanh nc)
      | _ => Except.error "format error"

/-- Modelled from the spec: Component::NewComponentOfType is declared at
nnet-component-itf.h lines 206-208 with its body in nnet-component-itf.cc,
not under src/.  It consults the type-name registry and returns a fresh
default-constructed instance, or null (`none`) when no such type exists. -/
def Component.NewComponentOfType (ty : String) : Option Component :=
  if ty = "<SigmoidComponent>" then some (Component.sigmoid ⟨0, [], [], 0⟩)
  else if ty = "<TanhComponent>" then some (Component.tanh ⟨0, [], [], 0⟩)
  else none

/-- Modelled from the spec: Component::ReadNew is declared at
nnet-component-itf.h line 195 with its body in nnet-component-itf.cc, not
under src/.  It reads the leading type token, instantiates the matching
type via the registry, and delegates to its Read; an unrecognized token is
an unknown-type error. -/
def Component.ReadNew (ts : List Token) : Except String Component :=
  match ts with
  | Token.tok ty :: rest =>
      match Component.NewComponentOfType ty with
      | some c => c.Read rest
      | none => Except.error ("Unknown component type " ++ ty)
  | _ => Except.error "format error"

/-! ## CuSparseMatrix (cu-sparse-matrix.h) -/

/-- A host SparseVector: one sparse row as (column-index, value) pairs. -/
abbrev SparseRow := List (Nat × ℚ)

/-- Flattening of host rows into the device element list, starting at row
index `k`: each row entry (c, v) of row r becomes the triple (r, c, v),
rows in order.  Modelled from the spec: the flat device-resident element
list is the member `elements_` (cu-sparse-matrix.h line 79); the code that
fills it is in cu-sparse-matrix.cc, not under src/. -/
def flattenFrom : Nat → List SparseRow → List (Nat × Nat × ℚ)
  | _, [] => []
  | k, row :: rest =>
      row.map (fun e => (k, e.1, e.2)) ++ flattenFrom (k + 1) rest

/-- Recovery of the host row-list from the device element list: for each row
index, the (column, value) pairs of the elements carrying that row index,
in stream order.  Modelled from the spec: conversion back to host form is
in cu-sparse-matrix.cc, not under src/. -/
def unflattenRows (numRows : Nat) (elements : List (Nat × Nat × ℚ)) :
    List SparseRow :=
  (List.range numRows).map (fun r =>
    (elements.filter (fun e => e.1 == r)).map (fun e => e.2))

/-- The Device Sparse Matrix: exactly one representation is authoritative —
the CPU row-list `cpu_rows_` (cu-sparse-matrix.h line 73) or the flat
device element list `elements_` with its row count (line 79). -/
inductive CuSparseMatrix where
  | onCpu (cpu_rows : List SparseRow)
  | onGpu (numRows : Nat) (elements : List (Nat × Nat × ℚ))
  deriving DecidableEq

/-- Modelled from the spec: assignment from a CPU-based SparseMatrix
(operator= at cu-sparse-matrix.h line 44; body in cu-sparse-matrix.cc, not
under src/).  It deep-copies the rows; when accelerator execution is
enabled it flattens them into the device triple list instead. -/
def CuSparseMatrix.assignFromHost (useGpu : Bool)
    (rows : List SparseRow) : CuSparseMatrix :=
  if useGpu then CuSparseMatrix.onGpu rows.length (flattenFrom 0 rows)
  else CuSparseMatrix.onCpu rows

/-- Modelled from the spec: conversion of the active representation back to
host row-list form (via Swap with a host matrix, cu-sparse-matrix.h
line 50; body not under src/). -/
def CuSparseMatrix.toHostRows : CuSparseMatrix → List SparseRow
  | CuSparseMatrix.onCpu rows => rows
  | CuSparseMatrix.onGpu n elements => unflattenRows n elements

/-- The set of (row, column, value) entries of a host row-list, listed in
row-major order. -/
def hostEntries (rows : List SparseRow) : List (Nat × Nat × ℚ) :=
  flattenFrom 0 rows

/-! ## Helper lemmas -/

theorem length_colSums (m : List (List ℚ)) (n : Nat) :
    (colSums m n).length = n := by
  simp [colSums]

theorem resizeKeep_nil (n : Nat) : resizeKeep [] n = List.replicate n 0 := by
  rcases Nat.eq_zero_or_pos n with h | h
  · subst h; rfl
  · simp [resizeKeep, h]

theorem resizeKeep_of_length_eq (v : List ℚ) (n : Nat) (h : v.length = n) :
    resizeKeep v n = v := by
  simp [resizeKeep, h]

theorem vecAdd_replicate_zero (v : List ℚ) :
    vecAdd (List.replicate v.length 0) v = v := by
  induction v with
  | nil => rfl
  | cons a t ih =>
      show (0 + a) :: vecAdd (List.replicate t.length 0) t = a :: t
      rw [zero_add, ih]

theorem vecAdd_replicate_zero_of_length (n : Nat) (v : List ℚ)
    (h : v.length = n) : vecAdd (List.replicate n 0) v = v := by
  subst h
  exact vecAdd_replicate_zero v

theorem flattenFrom_mem_le (rows : List SparseRow) :
    ∀ k e, e ∈ flattenFrom k rows → k ≤ e.1 := by
  induction rows with
  | nil =>
      intro k e h
      simp [flattenFrom] at h
  | cons row rest ih =>
      intro k e h
      simp only [flattenFrom, List.mem_append, List.mem_map] at h
      rcases h with ⟨a, _, rfl⟩ | h
      · exact Nat.le_refl k
      · exact Nat.le_trans (Nat.le_succ k) (ih (k + 1) e h)

theorem unflatten_flatten_aux (rows : List SparseRow) :
    ∀ k, (List.range rows.length).map (fun i =>
        ((flattenFrom k rows).filter (fun e => e.1 == k + i)).map
          (fun e => e.2)) = rows := by
  induction rows with
  | nil => intro k; rfl
  | cons row rest ih =>
      intro k
      rw [List.length_cons, List.range_succ_eq_map, List.map_cons, List.map_map]
      congr 1
      · have hblock : (row.map (fun e => ((k, e.1, e.2) : Nat × Nat × ℚ))).filter
            (fun e => e.1 == k) = row.map (fun e => (k, e.1, e.2)) := by
          apply List.filter_eq_self.mpr
          intro a ha
          rcases List.mem_map.mp ha with ⟨b, _, rfl⟩
          simp
        have hnil : (flattenFrom (k + 1) rest).filter (fun e => e.1 == k) = [] := by
          apply List.filter_eq_nil_iff.mpr
          intro a ha
          have hle := flattenFrom_mem_le rest (k + 1) a ha
          simp only [beq_iff_eq]
          omega
        simp only [Nat.add_zero, flattenFrom, List.filter_append, List.map_append,
          hblock, hnil, List.map_nil, List.append_nil, List.map_map]
        have : (fun e => ((k, e.1, e.2) : Nat × Nat × ℚ).2) = fun (e : Nat × ℚ) => e := by
          funext e
          rfl
        rw [Function.comp_def, this]
        exact List.map_id' row
      · refine Eq.trans ?_ (ih (k + 1))
        apply List.map_congr_left
        intro i _
        simp only [Function.comp_apply]
        have hk : k + Nat.succ i = (k + 1) + i := by omega
        rw [hk]
        simp only [flattenFrom, List.filter_append, List.map_append]
        have hblock : (row.map (fun e => ((k, e.1, e.2) : Nat × Nat × ℚ))).filter
            (fun e => e.1 == (k + 1) + i) = [] := by
          apply List.filter_eq_nil_iff.mpr
          intro a ha
          rcases List.mem_map.mp ha with ⟨b, _, rfl⟩
          simp only [beq_iff_eq]
          omega
        rw [hblock]
        simp

theorem unflatten_flattenFrom_zero (rows : List SparseRow) :
    unflattenRows rows.length (flattenFrom 0 rows) = rows := by
  have h := unflatten_flatten_aux rows 0
  simp only [Nat.zero_add] at h
  simpa [unflattenRows] using h

/-! ## Claim theorems -/

/-- Claim C1, counterexample: NonlinearComponent::Init does not reset the
running statistics vectors.  On the concrete component with dim 1,
value_sum [5], deriv_sum [7], count 2, after Init(1) the accumulators are
unchanged: value_sum is still [5] (neither the zero vector of the dimension
nor empty) and deriv_sum is still [7]. -/
theorem C1_init_counterexample :
    ((⟨1, [5], [7], 2⟩ : NonlinearComponent).Init 1).value_sum = [5] ∧
    ((⟨1, [5], [7], 2⟩ : NonlinearComponent).Init 1).value_sum ≠ [0] ∧
    ((⟨1, [5], [7], 2⟩ : NonlinearComponent).Init 1).value_sum ≠ [] ∧
    ((⟨1, [5], [7], 2⟩ : NonlinearComponent).Init 1).deriv_sum = [7] ∧
    ((⟨1, [5], [7], 2⟩ : NonlinearComponent).Init 1).deriv_sum ≠ [0] ∧
    ((⟨1, [5], [7], 2⟩ : NonlinearComponent).Init 1).deriv_sum ≠ [] := by
  refine ⟨rfl, ?_, ?_, rfl, ?_, ?_⟩ <;> decide

/-- Claim C1, amended: for every NonlinearComponent, Init(dim) fixes the
component's dimension to dim and resets count to zero, while value_sum and
deriv_sum are left unchanged. -/
theorem C1_init_amended (c : NonlinearComponent) (d : Int) :
    (c.Init d).dim = d ∧ (c.Init d).count = 0 ∧
    (c.Init d).value_sum = c.value_sum ∧
    (c.Init d).deriv_sum = c.deriv_sum :=
  ⟨rfl, rfl, rfl, rfl⟩

/-- Claim C2: for every concrete component type, writing the component and
reading it back through ReadNew (which dispatches on the leading type token)
reconstructs a component with identical componentType (Type()), InputDim,
OutputDim, Properties, and bit-identical parameters and statistics (the
reconstruction equals the original state exactly). -/
theorem C2_write_read_roundtrip (c : Component) :
    ∃ c2, Component.ReadNew c.Write = Except.ok c2 ∧
      c2.componentType = c.componentType ∧
      c2.InputDim = c.InputDim ∧
      c2.OutputDim = c.OutputDim ∧
      c2.Properties = c.Properties ∧
      c2 = c := by
  refine ⟨c, ?_, rfl, rfl, rfl, rfl, rfl⟩
  cases c <;> rfl

/-- Claim C3: for every component whose Properties() bitmask has
kSimpleComponent set, and for every misc-info and output index,
GetInputIndexes returns the singleton list containing exactly the given
output index, unchanged. -/
theorem C3_simple_getInputIndexes (c : Component)
    (mi : MiscComputationInfo) (oi : Index)
    (h : c.Properties &&& kSimpleComponent ≠ 0) :
    c.GetInputIndexes mi oi = [oi] := by
  cases c <;> rfl

/-- Witness for C3: a concrete simple component satisfies the hypothesis and
the conclusion. -/
theorem C3_simple_getInputIndexes_witness :
    (Component.sigmoid ⟨3, [], [], 0⟩).Properties &&& kSimpleComponent ≠ 0 ∧
    (Component.sigmoid ⟨3, [], [], 0⟩).GetInputIndexes MiscComputationInfo.mk
      ⟨0, 1, 2⟩ = [⟨0, 1, 2⟩] :=
  ⟨by decide,
   C3_simple_getInputIndexes (Component.sigmoid ⟨3, [], [], 0⟩)
     MiscComputationInfo.mk ⟨0, 1, 2⟩ (by decide)⟩

/-- Claim C4: for every component whose Properties() bitmask has
kSimpleComponent set, and for every misc-info, input-index list,
output-index list, and need_backprop flag, PrecomputeIndexes returns null
(`none`): no precomputed-indexes object is ever produced. -/
theorem C4_simple_precomputeIndexes (c : Component)
    (mi : MiscComputationInfo) (ins outs : List Index) (nb : Bool)
    (h : c.Properties &&& kSimpleComponent ≠ 0) :
    c.PrecomputeIndexes mi ins outs nb = none := by
  cases c <;> rfl

/-- Witness for C4: a concrete simple component satisfies the hypothesis and
the conclusion. -/
theorem C4_simple_precomputeIndexes_witness :
    (Component.tanh ⟨2, [], [], 0⟩).Properties &&& kSimpleComponent ≠ 0 ∧
    (Component.tanh ⟨2, [], [], 0⟩).PrecomputeIndexes MiscComputationInfo.mk
      [⟨0, 0, 0⟩] [⟨0, 0, 0⟩] true = none :=
  ⟨by decide,
   C4_simple_precomputeIndexes (Component.tanh ⟨2, [], [], 0⟩)
     MiscComputationInfo.mk [⟨0, 0, 0⟩] [⟨0, 0, 0⟩] true (by decide)⟩

/-- Claim C5: for every UpdatableComponent, after SetZero(true) the
component has is_gradient true, LearningRate() equal to 1, and its
parameter vector equal to the all-zero vector of the same length (every
parameter value is exactly 0). -/
theorem C5_setZero_gradient (c : UpdatableComponent) :
    (c.SetZero true).is_gradient = some true ∧
    (c.SetZero true).LearningRate = 1 ∧
    (c.SetZero true).params = List.replicate c.params.length 0 :=
  ⟨rfl, rfl, rfl⟩

/-- Claim C6: UpdateStats adds each column's row sum of the output values
into value_sum, adds each column's row sum of the derivative values into
deriv_sum when a derivative matrix is supplied and leaves deriv_sum
unchanged otherwise, and increments count by the number of rows processed;
hence for a freshly initialized component fed two batches, count equals the
sum of the batch row counts and value_sum is the element-wise sum of the
two batches' column sums. -/
theorem C6_updateStats (c : NonlinearComponent) (m d : CuMat) (dm : Int)
    (rows1 rows2 : List (List ℚ)) (n : Nat) :
    (c.UpdateStats m (some d)).value_sum
      = vecAdd (resizeKeep c.value_sum m.ncols) (colSums m.rows m.ncols) ∧
    (c.UpdateStats m none).value_sum
      = vecAdd (resizeKeep c.value_sum m.ncols) (colSums m.rows m.ncols) ∧
    (c.UpdateStats m (some d)).deriv_sum
      = vecAdd (resizeKeep c.deriv_sum m.ncols) (colSums d.rows m.ncols) ∧
    (c.UpdateStats m none).deriv_sum = c.deriv_sum ∧
    (c.UpdateStats m (some d)).count = c.count + m.rows.length ∧
    (c.UpdateStats m none).count = c.count + m.rows.length ∧
    ((((⟨dm, [], [], 0⟩ : NonlinearComponent).UpdateStats ⟨rows1, n⟩
        none).UpdateStats ⟨rows2, n⟩ none).count
      = (rows1.length : ℚ) + rows2.length) ∧
    ((((⟨dm, [], [], 0⟩ : NonlinearComponent).UpdateStats ⟨rows1, n⟩
        none).UpdateStats ⟨rows2, n⟩ none).value_sum
      = vecAdd (colSums rows1 n) (colSums rows2 n)) := by
  refine ⟨rfl, rfl, rfl, rfl, rfl, rfl, ?_, ?_⟩
  · show ((0 : ℚ) + (rows1.length : ℚ)) + (rows2.length : ℚ)
      = (rows1.length : ℚ) + rows2.length
    rw [zero_add]
  · show vecAdd (resizeKeep (vecAdd (resizeKeep [] n) (colSums rows1 n)) n)
        (colSums rows2 n)
      = vecAdd (colSums rows1 n) (colSums rows2 n)
    rw [resizeKeep_nil,
      vecAdd_replicate_zero_of_length n (colSums rows1 n) (length_colSums rows1 n),
      resizeKeep_of_length_eq (colSums rows1 n) n (length_colSums rows1 n)]

/-- Claim C7: a host sparse matrix assigned into a Device Sparse Matrix and
converted back to host form yields the identical host rows, and in
particular the identical set of (row, column, value) entries, regardless of
whether the flat device element-list representation was used as an
intermediate. -/
theorem C7_sparse_roundtrip (useGpu : Bool) (rows : List SparseRow) :
    (CuSparseMatrix.assignFromHost useGpu rows).toHostRows = rows ∧
    hostEntries (CuSparseMatrix.assignFromHost useGpu rows).toHostRows
      = hostEntries rows := by
  cases useGpu with
  | false => exact ⟨rfl, rfl⟩
  | true =>
      have h : (CuSparseMatrix.assignFromHost true rows).toHostRows = rows := by
        show (CuSparseMatrix.onGpu rows.length (flattenFrom 0 rows)).toHostRows
          = rows
        exact unflatten_flattenFrom_zero rows
      exact ⟨h, by rw [h]⟩

/-- Claim C8: the default implementations of GetParameterDim, Vectorize and
UnVectorize fail with an unsupported-operation error (a failed
KALDI_ASSERT) and never return normally. -/
theorem C8_default_hooks_fail (c : UpdatableComponent) (v : List ℚ) :
    c.GetParameterDim = Except.error KaldiError.assertFailure ∧
    c.Vectorize = Except.error KaldiError.assertFailure ∧
    c.UnVectorize v = Except.error KaldiError.assertFailure :=
  ⟨rfl, rfl, rfl⟩

/-- Claim C9: for every type-name string not present in the registry,
NewComponentOfType returns null (`none`) rather than signalling an error,
whereas ReadNew fails with an unknown-type error when the leading type
token of the stream is unrecognized. -/
theorem C9_unknown_type (ty : String) (rest : List Token)
    (h1 : ty ≠ "<SigmoidComponent>") (h2 : ty ≠ "<TanhComponent>") :
    Component.NewComponentOfType ty = none ∧
    Component.ReadNew (Token.tok ty :: rest)
      = Except.error ("Unknown component type " ++ ty) := by
  have hn : Component.NewComponentOfType ty = none := by
    simp [Component.NewComponentOfType, h1, h2]
  refine ⟨hn, ?_⟩
  simp [Component.ReadNew, hn]

/-- Witness for C9: the unregistered name "FooComponent" satisfies the
hypotheses and the conclusion. -/
theorem C9_unknown_type_witness :
    "FooComponent" ≠ "<SigmoidComponent>" ∧
    "FooComponent" ≠ "<TanhComponent>" ∧
    (Component.NewComponentOfType "FooComponent" = none ∧
     Component.ReadNew (Token.tok "FooComponent" :: [])
       = Except.error ("Unknown component type " ++ "FooComponent")) :=
  ⟨by decide, by decide,
   C9_unknown_type "FooComponent" [] (by decide) (by decide)⟩

/-- Claim C10: after the no-argument constructor of UpdatableComponent,
LearningRate() returns exactly 0.001 and is_gradient has been given no
value (modelled as `none`), whatever parameter storage the concrete
subclass holds. -/
theorem C10_default_constructor (ps : List ℚ) :
    (UpdatableComponent.mkDefault ps).LearningRate = 0.001 ∧
    (UpdatableComponent.mkDefault ps).LearningRate = 1 / 1000 ∧
    (UpdatableComponent.mkDefault ps).is_gradient = none :=
  ⟨rfl, by norm_num [UpdatableComponent.mkDefault, UpdatableComponent.LearningRate], rfl⟩

end Kaldi
